import Mathlib

/-!
Shallow embedding of the OpenAlgo Desktop frontend core: the Secret Vault
interface (modelled from the spec), the Zustand auth store
(src/src/stores/authStore.ts), the Tauri event handlers
(src/src/hooks/useSocket.ts and the auto-logout hook), the strategy API
(src/src/api/strategy.ts) and the trading API (src/src/api/chartink.ts).
JavaScript semantics relevant to the embedded code (string/number falsiness,
optional chaining, nullish coalescing) are made explicit as helper functions.
-/

/-! ## JavaScript value helpers -/

/-- JavaScript `x || d` for an optional string `x`: the empty string is falsy,
so `undefined` and `""` both fall through to the default `d`. -/
def jsStrOrDefault (x : Option String) (d : String) : String :=
  match x with
  | some s => if s = "" then d else s
  | none => d

/-- JavaScript `x || null` for an optional string produced by optional
chaining: `undefined` and `""` both become `null`. -/
def jsStrOrNull (x : Option String) : Option String :=
  match x with
  | some s => if s = "" then none else some s
  | none => none

/-- JavaScript `x || d` for an optional number: `0` is falsy. -/
def jsIntOrDefault (x : Option Int) (d : Int) : Int :=
  match x with
  | some q => if q = 0 then d else q
  | none => d

/-- Outcome of an awaited backend (Tauri) call: a value, or a thrown error. -/
inductive BackendResult (α : Type) where
  | ok (value : α)
  | thrown
deriving DecidableEq, Repr

/-! ## Secret Vault (modelled from the spec) -/

/-- Modelled from the spec: the Secret Vault lives in the Rust backend, which
is not among the repository source files.  Its `encrypt` uses AES-256-GCM
with a freshly generated 96-bit nonce, so a nonce is one of `2 ^ 96` values. -/
abbrev Nonce : Type := Fin (2 ^ 96)

/-- Modelled from the spec: the result of `encrypt(plaintext)` is a
ciphertext together with the fresh nonce (persisted alongside it) and the
GCM authentication tag. -/
structure EncryptedField where
  ciphertext : List Nat
  nonce : Nonce
  tag : Nat
deriving DecidableEq, Repr

/-- Modelled from the spec: counter-mode keystream XOR, the core of GCM
encryption.  `ks nonce i` is the i-th keystream byte derived from the master
key and the nonce; the master-key-dependent keystream is a parameter. -/
def ctrXor (ks : Nonce → Nat → Nat) (nonce : Nonce) : Nat → List Nat → List Nat
  | _, [] => []
  | i, b :: bs => Nat.xor b (ks nonce i) :: ctrXor ks nonce (i + 1) bs

/-- Modelled from the spec: `encrypt(plaintext) → (ciphertext, nonce)` with
an authentication tag over the ciphertext (AES-256-GCM).  The tag function
(GHASH under the master key) is a parameter. -/
def encrypt (ks : Nonce → Nat → Nat) (tag : Nonce → List Nat → Nat)
    (plaintext : List Nat) (nonce : Nonce) : EncryptedField :=
  let ct := ctrXor ks nonce 0 plaintext
  { ciphertext := ct, nonce := nonce, tag := tag nonce ct }

/-- Modelled from the spec: `decrypt(ciphertext, nonce) → plaintext`, the
inverse of `encrypt`; fails with `AuthTagMismatch` (here `none`) on tamper. -/
def decrypt (ks : Nonce → Nat → Nat) (tag : Nonce → List Nat → Nat)
    (e : EncryptedField) : Option (List Nat) :=
  if e.tag = tag e.nonce e.ciphertext then
    some (ctrXor ks e.nonce 0 e.ciphertext)
  else
    none

/-- Number of pairs of nonces that collide, out of all ordered pairs of
independently drawn 96-bit nonces. -/
def nonceCollisionCount : ℕ := Fintype.card {p : Nonce × Nonce // p.1 = p.2}

/-- Number of ordered pairs of 96-bit nonces. -/
def noncePairCount : ℕ := Fintype.card (Nonce × Nonce)

/-! ## Auth store (src/src/stores/authStore.ts) -/

/-- The `User` interface of the auth store. -/
structure User where
  username : String
  broker : Option String
  brokerId : Option String
  isLoggedIn : Bool
  loginTime : Option String
deriving DecidableEq, Repr

/-- The state fields of the `AuthStore` (the action closures act on these). -/
structure AuthStore where
  user : Option User
  apiKey : Option String
  isAuthenticated : Bool
  brokerConnected : Bool
  isLoading : Bool
  error : Option String
deriving DecidableEq, Repr

/-- `logout` of the auth store: sets `isLoading`, awaits the backend
`authApi.logout()` (a thrown error is only logged), and in the `finally`
block unconditionally clears the session fields. -/
def logout (backendThrows : Bool) (s : AuthStore) : AuthStore :=
  let s1 := { s with isLoading := true }
  let _ := backendThrows
  { s1 with
    user := none
    apiKey := none
    isAuthenticated := false
    brokerConnected := false
    isLoading := false
    error := none }

/-- `brokerLogout` of the auth store: sets `isLoading`; on backend success,
if a user is present, clears only the broker fields of the user and
`brokerConnected`; a thrown backend error is logged and only `isLoading`
is reset. -/
def brokerLogout (backendThrows : Bool) (s : AuthStore) : AuthStore :=
  let s1 := { s with isLoading := true }
  if backendThrows then
    { s1 with isLoading := false }
  else
    match s1.user with
    | some currentUser =>
      { s1 with
        user := some { currentUser with broker := none, brokerId := none }
        brokerConnected := false
        isLoading := false }
    | none => s1

/-- Shape of `session.user` in the `authApi.getSession()` response, as read
by `checkSession`. -/
structure SessionUser where
  username : String
  authenticated_at : Option String
deriving DecidableEq, Repr

/-- Shape of `session.broker` in the `authApi.getSession()` response, as
read by `checkSession`. -/
structure SessionBroker where
  user_id : Option String
  broker_id : Option String
  connected : Bool
deriving DecidableEq, Repr

/-- Shape of the `authApi.getSession()` response, as read by
`checkSession`. -/
structure SessionResponse where
  authenticated : Bool
  user : Option SessionUser
  broker : Option SessionBroker
deriving DecidableEq, Repr

/-- `checkSession` of the auth store: fetches the backend session; when it
reports an authenticated user, rebuilds the store user from the response and
returns `true`; otherwise clears `user`, `isAuthenticated` and
`brokerConnected` and returns `false`; a thrown backend error is logged and
`false` is returned with the store untouched. -/
def checkSession (r : BackendResult SessionResponse) (s : AuthStore) :
    AuthStore × Bool :=
  match r with
  | .thrown => (s, false)
  | .ok session =>
    match session.authenticated, session.user with
    | true, some su =>
      let user : User :=
        { username := su.username
          broker := jsStrOrNull (session.broker.bind SessionBroker.user_id)
          brokerId := jsStrOrNull (session.broker.bind SessionBroker.broker_id)
          isLoggedIn := true
          loginTime := su.authenticated_at }
      ({ s with
          user := some user
          isAuthenticated := true
          brokerConnected := (session.broker.map SessionBroker.connected).getD false },
        true)
    | _, _ =>
      ({ s with
          user := none
          isAuthenticated := false
          brokerConnected := false },
        false)

/-! ## Tauri event handlers (src/src/hooks/useSocket.ts) -/

/-- A `toast.<kind>(message)` call made by a handler. -/
structure Toast where
  kind : String
  message : String
deriving DecidableEq, Repr

/-- The options object passed to the auto-logout-warning toast. -/
structure ToastOptions where
  duration : Nat
  id : String
deriving DecidableEq, Repr

/-- A toast call together with its options object. -/
structure ToastCall where
  kind : String
  message : String
  options : ToastOptions
deriving DecidableEq, Repr

/-- A `navigate(path, { replace, state: { reason } })` call. -/
structure Navigation where
  path : String
  replace : Bool
  reason : String
deriving DecidableEq, Repr

/-- `getToastType` of the auto-logout hook: severity of a warning toast as a
function of the minutes remaining. -/
def getToastType (minutes : Int) : String :=
  if minutes ≤ 1 then "error"
  else if minutes ≤ 5 then "warning"
  else "info"

/-- The `auto_logout_warning` event handler: computes the toast type from
`minutes_remaining` and issues exactly one toast with a 10-second duration
and a fixed id that deduplicates concurrent warning toasts. -/
def handleAutoLogoutWarning (minutes_remaining : Int) (message : String) :
    ToastCall :=
  let toastType := getToastType minutes_remaining
  let toastOptions : ToastOptions := { duration := 10000, id := "auto-logout-warning" }
  if toastType = "error" then
    { kind := "error", message := message, options := toastOptions }
  else if toastType = "warning" then
    { kind := "warning", message := message, options := toastOptions }
  else
    { kind := "info", message := message, options := toastOptions }

/-- The `auto_logout` event handler: shows a final info toast with the
payload reason, performs the store `logout` (its own failure is only
logged), then navigates to the login route with `replace` and a state
reason of `auto_logout`. -/
def handleAutoLogout (reason : String) (backendThrows : Bool) (s : AuthStore) :
    AuthStore × Toast × Navigation :=
  (logout backendThrows s,
   { kind := "info", message := reason },
   { path := "/login", replace := true, reason := "auto_logout" })

/-- Throttle interval for the alert sound (`AUDIO_THROTTLE_MS`). -/
def AUDIO_THROTTLE_MS : Nat := 1000

/-- Mutable audio state of `useSocket`: the `lastAudioTimeRef` timestamp. -/
structure AudioState where
  lastAudioTime : Nat
deriving DecidableEq, Repr

/-- `playAlertSound`: skips when the last attempt was under
`AUDIO_THROTTLE_MS` ago (unless the timestamp is still the initial 0);
otherwise records the attempt time and plays.  Returns the new state and
whether the sound was actually played. -/
def playAlertSound (now : Nat) (st : AudioState) : AudioState × Bool :=
  if now - st.lastAudioTime < AUDIO_THROTTLE_MS ∧ st.lastAudioTime ≠ 0 then
    (st, false)
  else
    ({ lastAudioTime := now }, true)

/-- `OrderEventData`: payload of the `order_event` Tauri event.  The two
optional flags model the `batch_order?` and `is_last_order?` fields. -/
structure OrderEventData where
  symbol : String
  action : String
  orderid : String
  batch_order : Option Bool
  is_last_order : Option Bool
deriving DecidableEq, Repr

/-- JavaScript `String.prototype.toUpperCase` restricted to the characters
the embedded code compares (ASCII action names). -/
def toUpperCase (s : String) : String := String.mk (s.data.map Char.toUpper)

/-- Result of one run of the `order_event` handler: the new audio state,
whether `playAlertSound` was invoked, whether the sound actually played
(throttling happens inside `playAlertSound`), and the toast shown. -/
structure OrderEventResult where
  audio : AudioState
  soundAttempted : Bool
  soundPlayed : Bool
  toast : Toast
deriving DecidableEq, Repr

/-- The `order_event` handler of `useSocket`: attempts the alert sound when
the event is not a batch order or is the last order of its batch, then
always shows a toast — success for a BUY action (after uppercasing), error
otherwise. -/
def handleOrderEvent (data : OrderEventData) (now : Nat) (st : AudioState) :
    OrderEventResult :=
  let shouldPlayAudio :=
    !(data.batch_order == some true) || (data.is_last_order == some true)
  let played := if shouldPlayAudio then playAlertSound now st else (st, false)
  let message :=
    toUpperCase data.action ++ " Order Placed for Symbol: " ++ data.symbol ++
      ", Order ID: " ++ data.orderid
  let t : Toast :=
    if toUpperCase data.action = "BUY" then
      { kind := "success", message := message }
    else
      { kind := "error", message := message }
  { audio := played.1
    soundAttempted := shouldPlayAudio
    soundPlayed := played.2
    toast := t }

/-! ## Strategy API (src/src/api/strategy.ts) -/

/-- The partial input accepted by `createStrategy` (the fields that feed the
Tauri `createStrategy` command payload). -/
structure CreateStrategyData where
  name : String
  webhook_id : Option String
  exchange : Option String
  symbol : Option String
  product : Option String
  quantity : Option Int
  enabled : Option Bool
deriving DecidableEq, Repr

/-- The payload handed to the Tauri `strategyCommands.createStrategy`
command (the fields the frontend fills in). -/
structure StrategyCommandInput where
  name : String
  webhook_id : String
  exchange : String
  symbol : String
  product : String
  quantity : Int
  enabled : Bool
deriving DecidableEq, Repr

/-- `createStrategy` of the strategy API: generates a webhook id when none
is provided (`data.webhook_id || crypto.randomUUID()`, so an empty string
also falls through to the generated UUID) and fills in the remaining
defaults.  `freshUUID` stands for the `crypto.randomUUID()` draw. -/
def createStrategy (data : CreateStrategyData) (freshUUID : String) :
    StrategyCommandInput :=
  let webhookId := jsStrOrDefault data.webhook_id freshUUID
  { name := data.name
    webhook_id := webhookId
    exchange := jsStrOrDefault data.exchange ""
    symbol := jsStrOrDefault data.symbol ""
    product := jsStrOrDefault data.product "MIS"
    quantity := jsIntOrDefault data.quantity 1
    enabled := data.enabled.getD true }

/-! ## Trading API (src/src/api/chartink.ts) -/

/-- The fields of a `Position` read by `tradingApi.closePosition`. -/
structure Position where
  symbol : String
  exchange : String
  product : String
  quantity : Int
deriving DecidableEq, Repr

/-- The payload of a `positionCommands.closePosition` call. -/
structure ClosePositionCommand where
  symbol : String
  exchange : String
  product : String
  quantity : Int
  position_type : String
deriving DecidableEq, Repr

/-- An `ApiResponse` as produced by the trading API wrappers. -/
structure ApiResponse where
  status : String
  message : Option String
deriving DecidableEq, Repr

/-- `tradingApi.closePosition`: looks the position up in the fetched
position book by (symbol, exchange, product); when no match exists or the
match has quantity 0, returns an error without issuing any command;
otherwise issues exactly one close-position command for the absolute
quantity, long for a positive and short for a negative position.  A thrown
close command still counts as issued and is mapped to an error response. -/
def closePosition (closeThrows : Bool) (positions : List Position)
    (symbol exchange product : String) :
    ApiResponse × Option ClosePositionCommand :=
  let position := positions.find? fun p =>
    p.symbol == symbol && p.exchange == exchange && p.product == product
  match position with
  | none => ({ status := "error", message := some "Position not found or already closed" }, none)
  | some p =>
    if p.quantity = 0 then
      ({ status := "error", message := some "Position not found or already closed" }, none)
    else
      let cmd : ClosePositionCommand :=
        { symbol := symbol
          exchange := exchange
          product := product
          quantity := |p.quantity|
          position_type := if p.quantity > 0 then "long" else "short" }
      if closeThrows then
        ({ status := "error", message := some "Unknown error" }, some cmd)
      else
        ({ status := "success", message := none }, some cmd)

/-- The fields of an `Order` read by `tradingApi.cancelAllOrders` (the
`Order` interface also carries an `order_status` union whose
trigger-pending member is spelled with a space). -/
structure Order where
  order_id : String
  status : String
deriving DecidableEq, Repr

/-- The `pendingOrders` filter of `tradingApi.cancelAllOrders`. -/
def pendingOrdersOf (orders : List Order) : List Order :=
  orders.filter fun o =>
    o.status == "pending" || o.status == "open" || o.status == "trigger_pending"

/-- `tradingApi.cancelAllOrders`: cancels exactly the pending orders of the
fetched order book, one cancel request (by order id) per pending order. -/
def cancelAllOrders (orders : List Order) : List String :=
  (pendingOrdersOf orders).map Order.order_id

/-! ## Concrete fixtures used to instantiate the theorems -/

/-- A concrete logged-in user with a connected broker. -/
def sampleUser : User :=
  { username := "alice"
    broker := some "fyers"
    brokerId := some "FY1"
    isLoggedIn := true
    loginTime := some "2026-01-01T09:15:00Z" }

/-- A concrete authenticated store state with a connected broker. -/
def sampleAuth : AuthStore :=
  { user := some sampleUser
    apiKey := some "key-123"
    isAuthenticated := true
    brokerConnected := true
    isLoading := false
    error := none }

/-- A concrete authenticated backend session response with a connected
broker. -/
def sampleSession : SessionResponse :=
  { authenticated := true
    user := some { username := "alice", authenticated_at := some "2026-01-02T03:00:00Z" }
    broker := some { user_id := some "FY123", broker_id := some "fyers", connected := true } }

/-- A concrete `createStrategy` input that supplies its own webhook id. -/
def sampleStrategyData : CreateStrategyData :=
  { name := "momentum"
    webhook_id := some "hook-1"
    exchange := some "NSE"
    symbol := some "RELIANCE"
    product := some "MIS"
    quantity := some 2
    enabled := some true }

/-- The same `createStrategy` input with an empty-string webhook id. -/
def sampleStrategyDataEmptyHook : CreateStrategyData :=
  { sampleStrategyData with webhook_id := some "" }

/-- A concrete `order_event` payload (a plain, non-batch buy order). -/
def sampleOrderEvent : OrderEventData :=
  { symbol := "TCS"
    action := "buy"
    orderid := "OID1"
    batch_order := none
    is_last_order := none }

/-- A concrete position book: a short position and a flat one. -/
def samplePositions : List Position :=
  [{ symbol := "TCS", exchange := "NSE", product := "MIS", quantity := -5 },
   { symbol := "INFY", exchange := "NSE", product := "MIS", quantity := 0 }]

/-- A concrete order book covering open, terminal and trigger-pending
(space-spelled) statuses. -/
def sampleOrders : List Order :=
  [{ order_id := "O1", status := "open" },
   { order_id := "O2", status := "complete" },
   { order_id := "O3", status := "trigger pending" },
   { order_id := "O4", status := "trigger_pending" }]

/-! ## Theorems -/

/-- Counter-mode keystream XOR is an involution: applying the same keystream
twice from the same counter start returns the original byte list. -/
theorem ctrXor_ctrXor (ks : Nonce → Nat → Nat) (n : Nonce) :
    ∀ (i : Nat) (bs : List Nat), ctrXor ks n i (ctrXor ks n i bs) = bs
  | _, [] => rfl
  | i, b :: bs => by
    have h : (Nat.xor b (ks n i)).xor (ks n i) = b := Nat.xor_cancel_right _ _
    simp [ctrXor, ctrXor_ctrXor ks n (i + 1) bs, h]

/-- C1: decrypting the ciphertext produced by `encrypt(x)` with the nonce
produced by that same call returns `x`; `encrypt` returns exactly the drawn
nonce, and two independently drawn uniform 96-bit nonces collide with
probability `1 / 2 ^ 96` — so two calls yield distinct nonces with
overwhelming probability. -/
theorem encrypt_decrypt_roundtrip_and_fresh_nonces :
    (∀ (ks : Nonce → Nat → Nat) (tag : Nonce → List Nat → Nat)
        (x : List Nat) (n : Nonce),
      decrypt ks tag (encrypt ks tag x n) = some x)
    ∧ (∀ (ks : Nonce → Nat → Nat) (tag : Nonce → List Nat → Nat)
        (x : List Nat) (n : Nonce),
      (encrypt ks tag x n).nonce = n)
    ∧ (nonceCollisionCount : ℚ) / (noncePairCount : ℚ) = 1 / 2 ^ 96 := by
  refine ⟨fun ks tag x n => ?_, fun ks tag x n => rfl, ?_⟩
  · simp [encrypt, decrypt, ctrXor_ctrXor]
  · have e : {p : Nonce × Nonce // p.1 = p.2} ≃ Nonce :=
      { toFun := fun p => p.1.1
        invFun := fun a => ⟨(a, a), rfl⟩
        left_inv := fun p => by
          obtain ⟨⟨a, b⟩, h⟩ := p
          cases h
          rfl
        right_inv := fun a => rfl }
    have h1 : nonceCollisionCount = 2 ^ 96 := by
      rw [nonceCollisionCount, Fintype.card_congr e, Fintype.card_fin]
    have h2 : noncePairCount = 2 ^ 96 * 2 ^ 96 := by
      rw [noncePairCount, Fintype.card_prod, Fintype.card_fin]
    rw [h1, h2]
    push_cast
    norm_num

/-- C2: `logout` clears the session unconditionally — whatever the starting
state and whether or not the backend logout command throws, afterwards the
store holds no user, no api key, no authentication, no broker connection and
no error — and a second `logout` leaves the state of the first unchanged. -/
theorem logout_clears_session_and_is_idempotent :
    ∀ (b b' : Bool) (s : AuthStore),
      (logout b s).user = none
      ∧ (logout b s).apiKey = none
      ∧ (logout b s).isAuthenticated = false
      ∧ (logout b s).brokerConnected = false
      ∧ (logout b s).error = none
      ∧ logout b' (logout b s) = logout b s := by
  intro b b' s
  exact ⟨rfl, rfl, rfl, rfl, rfl, rfl⟩

/-- C3: for an `auto_logout` event handled while authenticated, the handler
performs the store logout — afterwards the store holds no user and is not
authenticated, even if the backend logout command throws — and navigates to
the login route with `replace` set and the state reason `auto_logout`. -/
theorem auto_logout_handler_logs_out_and_redirects :
    ∀ (reason : String) (backendThrows : Bool) (s : AuthStore),
      s.isAuthenticated = true →
      (handleAutoLogout reason backendThrows s).1.user = none
      ∧ (handleAutoLogout reason backendThrows s).1.isAuthenticated = false
      ∧ (handleAutoLogout reason backendThrows s).2.2.path = "/login"
      ∧ (handleAutoLogout reason backendThrows s).2.2.replace = true
      ∧ (handleAutoLogout reason backendThrows s).2.2.reason = "auto_logout" := by
  intro reason backendThrows s _
  exact ⟨rfl, rfl, rfl, rfl, rfl⟩

/-- Witness for C3 at a concrete authenticated store and a throwing backend. -/
theorem auto_logout_handler_logs_out_and_redirects_witness :
    (handleAutoLogout "Scheduled logout" true sampleAuth).1.user = none
    ∧ (handleAutoLogout "Scheduled logout" true sampleAuth).1.isAuthenticated = false
    ∧ (handleAutoLogout "Scheduled logout" true sampleAuth).2.2.path = "/login"
    ∧ (handleAutoLogout "Scheduled logout" true sampleAuth).2.2.replace = true
    ∧ (handleAutoLogout "Scheduled logout" true sampleAuth).2.2.reason = "auto_logout" :=
  auto_logout_handler_logs_out_and_redirects "Scheduled logout" true sampleAuth rfl

/-- C4 counterexample: `checkSession` is not free of side effects on the
store — when the backend reports no session, it clears a previously set
user, so the store's `user` field changes. -/
theorem checkSession_mutates_store_cex :
    (checkSession
        (.ok { authenticated := false, user := none, broker := none })
        sampleAuth).1.user ≠ sampleAuth.user := by
  decide

/-- C4 amended: `checkSession` reports whether the backend holds an
authenticated session, and it never touches `apiKey`, `isLoading` or
`error`; but it synchronizes `user`, `isAuthenticated` and `brokerConnected`
with the backend response — rebuilding the user from the response when an
authenticated session with a user is reported, and clearing all three
fields when not — and leaves the store entirely unchanged only when the
backend call throws. -/
theorem checkSession_reports_and_syncs :
    ∀ (r : BackendResult SessionResponse) (s : AuthStore),
      (checkSession r s).1.apiKey = s.apiKey
      ∧ (checkSession r s).1.isLoading = s.isLoading
      ∧ (checkSession r s).1.error = s.error
      ∧ checkSession .thrown s = (s, false)
      ∧ ((checkSession r s).2 = true ↔
          ∃ session, r = .ok session
            ∧ session.authenticated = true ∧ session.user.isSome = true)
      ∧ (∀ session su, r = .ok session → session.authenticated = true →
          session.user = some su →
          (checkSession r s).1.user = some
              { username := su.username
                broker := jsStrOrNull (session.broker.bind SessionBroker.user_id)
                brokerId := jsStrOrNull (session.broker.bind SessionBroker.broker_id)
                isLoggedIn := true
                loginTime := su.authenticated_at }
            ∧ (checkSession r s).1.isAuthenticated = true
            ∧ (checkSession r s).1.brokerConnected =
                (session.broker.map SessionBroker.connected).getD false)
      ∧ (∀ session, r = .ok session →
          (session.authenticated = false ∨ session.user = none) →
          (checkSession r s).1.user = none
            ∧ (checkSession r s).1.isAuthenticated = false
            ∧ (checkSession r s).1.brokerConnected = false) := by
  intro r s
  cases r with
  | thrown =>
    refine ⟨rfl, rfl, rfl, rfl, ?_, ?_, ?_⟩
    · simp [checkSession]
    · intro session su h
      exact absurd h (by simp)
    · intro session h
      exact absurd h (by simp)
  | ok session =>
    obtain ⟨auth, su, sb⟩ := session
    cases auth <;> cases su
    · refine ⟨rfl, rfl, rfl, rfl, ?_, ?_, ?_⟩
      · simp [checkSession]
      · intro session su' h0 h1 _
        injection h0 with h0
        subst h0
        simp at h1
      · intro session h0 _
        injection h0 with h0
        subst h0
        exact ⟨rfl, rfl, rfl⟩
    · refine ⟨rfl, rfl, rfl, rfl, ?_, ?_, ?_⟩
      · simp [checkSession]
      · intro session su' h0 h1 _
        injection h0 with h0
        subst h0
        simp at h1
      · intro session h0 _
        injection h0 with h0
        subst h0
        exact ⟨rfl, rfl, rfl⟩
    · refine ⟨rfl, rfl, rfl, rfl, ?_, ?_, ?_⟩
      · simp [checkSession]
      · intro session su' h0 _ h2
        injection h0 with h0
        subst h0
        simp at h2
      · intro session h0 _
        injection h0 with h0
        subst h0
        exact ⟨rfl, rfl, rfl⟩
    · refine ⟨rfl, rfl, rfl, rfl, ?_, ?_, ?_⟩
      · simp [checkSession]
      · intro session su' h0 _ h2
        injection h0 with h0
        subst h0
        injection h2 with h2
        subst h2
        exact ⟨rfl, rfl, rfl⟩
      · intro session h0 h
        injection h0 with h0
        subst h0
        rcases h with h | h <;> simp at h

/-- Witness for the amended C4: an authenticated backend response rebuilds
the store user from the response fields, and a non-authenticated response
clears the session fields, starting from the concrete authenticated store. -/
theorem checkSession_reports_and_syncs_witness :
    ((checkSession (.ok sampleSession) sampleAuth).1.user = some
        { username := "alice"
          broker := some "FY123"
          brokerId := some "fyers"
          isLoggedIn := true
          loginTime := some "2026-01-02T03:00:00Z" }
      ∧ (checkSession (.ok sampleSession) sampleAuth).1.isAuthenticated = true
      ∧ (checkSession (.ok sampleSession) sampleAuth).1.brokerConnected = true)
    ∧ ((checkSession
          (.ok { authenticated := false, user := none, broker := none })
          sampleAuth).1.user = none
      ∧ (checkSession
          (.ok { authenticated := false, user := none, broker := none })
          sampleAuth).1.isAuthenticated = false
      ∧ (checkSession
          (.ok { authenticated := false, user := none, broker := none })
          sampleAuth).1.brokerConnected = false) :=
  ⟨(checkSession_reports_and_syncs (.ok sampleSession) sampleAuth).2.2.2.2.2.1
      sampleSession
      { username := "alice", authenticated_at := some "2026-01-02T03:00:00Z" }
      rfl rfl rfl,
   (checkSession_reports_and_syncs
      (.ok { authenticated := false, user := none, broker := none })
      sampleAuth).2.2.2.2.2.2
      { authenticated := false, user := none, broker := none }
      rfl (Or.inl rfl)⟩

/-- C5: an `auto_logout_warning` with `minutes_remaining = m` produces
exactly one toast call, and its severity is a function of `m` alone:
error when `m ≤ 1`, warning when `1 < m ≤ 5`, info otherwise — so the
default 15- and 30-minute warnings are info toasts. -/
theorem auto_logout_warning_single_toast_severity :
    ∀ (m : Int) (msg : String),
      ((handleAutoLogoutWarning m msg).kind = "error" ↔ m ≤ 1)
      ∧ ((handleAutoLogoutWarning m msg).kind = "warning" ↔ (1 < m ∧ m ≤ 5))
      ∧ ((handleAutoLogoutWarning m msg).kind = "info" ↔ 5 < m)
      ∧ (handleAutoLogoutWarning m msg).message = msg
      ∧ (handleAutoLogoutWarning 15 msg).kind = "info"
      ∧ (handleAutoLogoutWarning 30 msg).kind = "info" := by
  intro m msg
  have hew : ("error" : String) ≠ "warning" := by decide
  have hei : ("error" : String) ≠ "info" := by decide
  have hwi : ("warning" : String) ≠ "info" := by decide
  have hwe : ("warning" : String) ≠ "error" := by decide
  have hie : ("info" : String) ≠ "error" := by decide
  have hiw : ("info" : String) ≠ "warning" := by decide
  refine ⟨?_, ?_, ?_, ?_, rfl, rfl⟩ <;>
    rcases le_or_lt m 1 with h1 | h1
  · simp only [handleAutoLogoutWarning, getToastType, if_pos h1]
    simp [h1]
  · rcases le_or_lt m 5 with h5 | h5
    · simp only [handleAutoLogoutWarning, getToastType, if_neg (not_le.mpr h1), if_pos h5]
      simp [hwe, not_le.mpr h1]
    · simp only [handleAutoLogoutWarning, getToastType, if_neg (not_le.mpr h1),
        if_neg (not_le.mpr h5)]
      simp [hie, hiw, not_le.mpr h1]
  · simp only [handleAutoLogoutWarning, getToastType, if_pos h1]
    simp [hew]
    omega
  · rcases le_or_lt m 5 with h5 | h5
    · simp only [handleAutoLogoutWarning, getToastType, if_neg (not_le.mpr h1), if_pos h5]
      simp [hwe, h1, h5]
    · simp only [handleAutoLogoutWarning, getToastType, if_neg (not_le.mpr h1),
        if_neg (not_le.mpr h5)]
      simp [hie, hiw]
      omega
  · simp only [handleAutoLogoutWarning, getToastType, if_pos h1]
    simp [hew, hei]
    omega
  · rcases le_or_lt m 5 with h5 | h5
    · simp only [handleAutoLogoutWarning, getToastType, if_neg (not_le.mpr h1), if_pos h5]
      simp [hwe, hwi]
      omega
    · simp only [handleAutoLogoutWarning, getToastType, if_neg (not_le.mpr h1),
        if_neg (not_le.mpr h5)]
      simp [hie, hiw, h5]
  · simp only [handleAutoLogoutWarning, getToastType, if_pos h1]
    simp [hew]
  · rcases le_or_lt m 5 with h5 | h5
    · simp only [handleAutoLogoutWarning, getToastType, if_neg (not_le.mpr h1), if_pos h5]
      simp [hwe]
    · simp only [handleAutoLogoutWarning, getToastType, if_neg (not_le.mpr h1),
        if_neg (not_le.mpr h5)]
      simp [hie, hiw]

/-- C6: a successful `brokerLogout` from an authenticated state clears only
the broker-session fields — the user's broker and broker id become `null`
and `brokerConnected` becomes false — while the username, logged-in flag,
login time, api key, authentication flag and error survive. -/
theorem brokerLogout_clears_only_broker_fields :
    ∀ (s : AuthStore) (u : User),
      s.user = some u →
      (∃ u', (brokerLogout false s).user = some u'
        ∧ u'.username = u.username
        ∧ u'.isLoggedIn = u.isLoggedIn
        ∧ u'.loginTime = u.loginTime
        ∧ u'.broker = none
        ∧ u'.brokerId = none)
      ∧ (brokerLogout false s).apiKey = s.apiKey
      ∧ (brokerLogout false s).isAuthenticated = s.isAuthenticated
      ∧ (brokerLogout false s).brokerConnected = false
      ∧ (brokerLogout false s).error = s.error := by
  intro s u h
  simp [brokerLogout, h]

/-- Witness for C6 at the concrete authenticated store with a connected
broker. -/
theorem brokerLogout_clears_only_broker_fields_witness :
    (∃ u', (brokerLogout false sampleAuth).user = some u'
      ∧ u'.username = sampleUser.username
      ∧ u'.isLoggedIn = sampleUser.isLoggedIn
      ∧ u'.loginTime = sampleUser.loginTime
      ∧ u'.broker = none
      ∧ u'.brokerId = none)
    ∧ (brokerLogout false sampleAuth).apiKey = sampleAuth.apiKey
    ∧ (brokerLogout false sampleAuth).isAuthenticated = sampleAuth.isAuthenticated
    ∧ (brokerLogout false sampleAuth).brokerConnected = false
    ∧ (brokerLogout false sampleAuth).error = sampleAuth.error :=
  brokerLogout_clears_only_broker_fields sampleAuth sampleUser rfl

/-- C7: every created strategy carries a webhook id — a supplied non-empty
`webhook_id` is used exactly as given, while a missing or empty-string
`webhook_id` is replaced by the freshly generated UUID. -/
theorem createStrategy_webhook_id_spec :
    ∀ (data : CreateStrategyData) (freshUUID w : String),
      (data.webhook_id = some w → w ≠ "" →
        (createStrategy data freshUUID).webhook_id = w)
      ∧ ((data.webhook_id = none ∨ data.webhook_id = some "") →
        (createStrategy data freshUUID).webhook_id = freshUUID) := by
  intro data freshUUID w
  constructor
  · intro h hne
    simp [createStrategy, jsStrOrDefault, h, hne]
  · rintro (h | h) <;> simp [createStrategy, jsStrOrDefault, h]

/-- Witness for C7: a supplied webhook id survives, an empty one is
replaced by the generated UUID. -/
theorem createStrategy_webhook_id_spec_witness :
    (createStrategy sampleStrategyData "fresh-uuid").webhook_id = "hook-1"
    ∧ (createStrategy sampleStrategyDataEmptyHook "fresh-uuid").webhook_id = "fresh-uuid" :=
  ⟨(createStrategy_webhook_id_spec sampleStrategyData "fresh-uuid" "hook-1").1
      rfl (by decide),
   (createStrategy_webhook_id_spec sampleStrategyDataEmptyHook "fresh-uuid" "hook-1").2
      (Or.inr rfl)⟩

/-- C8: every handled `order_event` shows exactly one toast — success for a
BUY action after uppercasing, error for any other action — and the alert
sound is attempted precisely when the event is not a batch order or is the
last order of its batch; an attempt within 1000 ms of the previous one is
throttled, and a successful play records its time. -/
theorem order_event_toast_and_sound :
    ∀ (data : OrderEventData) (now : Nat) (st : AudioState),
      ((handleOrderEvent data now st).toast.kind = "success" ↔
        toUpperCase data.action = "BUY")
      ∧ ((handleOrderEvent data now st).toast.kind = "error" ↔
        toUpperCase data.action ≠ "BUY")
      ∧ ((handleOrderEvent data now st).soundAttempted = true ↔
        (data.batch_order ≠ some true ∨ data.is_last_order = some true))
      ∧ (st.lastAudioTime ≠ 0 → now - st.lastAudioTime < AUDIO_THROTTLE_MS →
        (handleOrderEvent data now st).soundPlayed = false)
      ∧ ((handleOrderEvent data now st).soundPlayed = true →
        (handleOrderEvent data now st).audio.lastAudioTime = now) := by
  intro data now st
  have hse : ("success" : String) ≠ "error" := by decide
  have hes : ("error" : String) ≠ "success" := by decide
  refine ⟨?_, ?_, ?_, ?_, ?_⟩
  · by_cases hb : toUpperCase data.action = "BUY" <;>
      simp [handleOrderEvent, hb, hes]
  · by_cases hb : toUpperCase data.action = "BUY" <;>
      simp [handleOrderEvent, hb, hse]
  · by_cases hbo : data.batch_order = some true <;>
      by_cases hlo : data.is_last_order = some true <;>
        simp [handleOrderEvent, hbo, hlo]
  · intro hnz hlt
    by_cases hbo : data.batch_order = some true <;>
      by_cases hlo : data.is_last_order = some true <;>
        simp [handleOrderEvent, playAlertSound, hbo, hlo, hnz, hlt]
  · intro hp
    by_cases hbo : data.batch_order = some true <;>
      by_cases hlo : data.is_last_order = some true <;>
        by_cases hth : now - st.lastAudioTime < AUDIO_THROTTLE_MS ∧ st.lastAudioTime ≠ 0 <;>
          simp_all [handleOrderEvent, playAlertSound, hbo, hlo] <;>
          rw [if_neg fun hc => hc.2 (hth hc.1)]

/-- Witness for C8: a plain buy order handled 400 ms after the previous
sound attempt — the sound attempt happens but is throttled, and the toast
is a success toast. -/
theorem order_event_toast_and_sound_witness :
    (handleOrderEvent sampleOrderEvent 900 { lastAudioTime := 500 }).toast.kind = "success"
    ∧ (handleOrderEvent sampleOrderEvent 900 { lastAudioTime := 500 }).soundAttempted = true
    ∧ (handleOrderEvent sampleOrderEvent 900 { lastAudioTime := 500 }).soundPlayed = false := by
  have h := order_event_toast_and_sound sampleOrderEvent 900 { lastAudioTime := 500 }
  exact ⟨h.1.mpr (by decide), h.2.2.1.mpr (by decide),
    h.2.2.2.1 (by decide) (by decide)⟩

/-- C9: `closePosition` is guarded and atomic on error — when the fetched
position book holds no match for (symbol, exchange, product) or the match
is flat, it returns the fixed error and issues no close command; otherwise
it issues exactly one close command for the absolute quantity, long for a
positive and short for a negative position, whether or not that command
then throws. -/
theorem closePosition_guard_and_single_command :
    ∀ (closeThrows : Bool) (positions : List Position) (sym exch prod : String),
      ((positions.find? (fun p =>
            p.symbol == sym && p.exchange == exch && p.product == prod) = none
          ∨ ∃ p, positions.find? (fun p =>
              p.symbol == sym && p.exchange == exch && p.product == prod) = some p
            ∧ p.quantity = 0) →
        closePosition closeThrows positions sym exch prod =
          ({ status := "error",
             message := some "Position not found or already closed" }, none))
      ∧ (∀ p, positions.find? (fun p =>
            p.symbol == sym && p.exchange == exch && p.product == prod) = some p →
          p.quantity ≠ 0 →
          (closePosition closeThrows positions sym exch prod).2 =
            some { symbol := sym
                   exchange := exch
                   product := prod
                   quantity := |p.quantity|
                   position_type := if p.quantity > 0 then "long" else "short" }) := by
  intro closeThrows positions sym exch prod
  constructor
  · rintro (h | ⟨p, hp, hq⟩)
    · simp [closePosition, h]
    · simp [closePosition, hp, hq]
  · intro p hp hq
    cases closeThrows <;> simp [closePosition, hp, hq]

/-- Witness for C9: the flat INFY position yields the error with no command;
the short TCS position yields one short close command for 5 units. -/
theorem closePosition_guard_and_single_command_witness :
    closePosition false samplePositions "INFY" "NSE" "MIS" =
      ({ status := "error",
         message := some "Position not found or already closed" }, none)
    ∧ (closePosition false samplePositions "TCS" "NSE" "MIS").2 =
      some { symbol := "TCS"
             exchange := "NSE"
             product := "MIS"
             quantity := 5
             position_type := "short" } := by
  constructor
  · exact (closePosition_guard_and_single_command false samplePositions "INFY" "NSE" "MIS").1
      (Or.inr ⟨{ symbol := "INFY", exchange := "NSE", product := "MIS", quantity := 0 },
        by decide, rfl⟩)
  · have h := (closePosition_guard_and_single_command false samplePositions "TCS" "NSE" "MIS").2
      { symbol := "TCS", exchange := "NSE", product := "MIS", quantity := -5 }
      (by decide) (by decide)
    rw [h]
    decide

/-- C10: `cancelAllOrders` issues one cancel request per order whose status
is pending, open or trigger_pending, and for no other order — in
particular never for the space-spelled trigger-pending status, nor for
complete, rejected or cancelled orders. -/
theorem cancelAllOrders_exactly_pending :
    ∀ (orders : List Order) (o : Order),
      cancelAllOrders orders = (pendingOrdersOf orders).map Order.order_id
      ∧ (o ∈ pendingOrdersOf orders ↔
          o ∈ orders ∧ (o.status = "pending" ∨ o.status = "open"
            ∨ o.status = "trigger_pending"))
      ∧ (o.status = "trigger pending" → o ∉ pendingOrdersOf orders)
      ∧ (o.status = "complete" → o ∉ pendingOrdersOf orders)
      ∧ (o.status = "rejected" → o ∉ pendingOrdersOf orders)
      ∧ (o.status = "cancelled" → o ∉ pendingOrdersOf orders) := by
  intro orders o
  have hmem : o ∈ pendingOrdersOf orders ↔
      o ∈ orders ∧ (o.status = "pending" ∨ o.status = "open"
        ∨ o.status = "trigger_pending") := by
    simp [pendingOrdersOf, List.mem_filter, or_assoc]
  refine ⟨rfl, hmem, ?_, ?_, ?_, ?_⟩ <;>
    intro hs hmem' <;>
      rcases (hmem.mp hmem').2 with h | h | h <;>
        rw [hs] at h <;> revert h <;> decide

/-- Witness for C10: in the concrete order book, the space-spelled
trigger-pending order is not cancelled, and the cancel requests are exactly
those for the open and trigger_pending orders. -/
theorem cancelAllOrders_exactly_pending_witness :
    ({ order_id := "O3", status := "trigger pending" } : Order) ∉ pendingOrdersOf sampleOrders
    ∧ cancelAllOrders sampleOrders = ["O1", "O4"] := by
  have h := cancelAllOrders_exactly_pending sampleOrders
    { order_id := "O3", status := "trigger pending" }
  exact ⟨h.2.2.1 rfl, by decide⟩
